import Mathlib

/-!
Verification development for the `ptq` job-queue tool.

The Python sources under `ptq/` are shallowly embedded: dictionaries become
association lists, `datetime.now()` / file-system / process effects become
explicit parameters and state records, fallible code returns `Except`.
Every definition is translated from the corresponding Python function
(file and line references are given in doc comments).  Operations that the
code calls on execution backends but whose bodies are not part of the
source tree (`launch_background`, `is_pid_alive`, `kill_pid`, `tail_log`)
are modelled from the specification and marked as such.
-/

set_option maxRecDepth 100000

namespace Ptq

/-! ## Python string primitives

Core `String` operations (`<`, `toNat!`, `replace`, …) are implemented by
well-founded recursion or `@[extern]` wrappers that the kernel cannot
evaluate, so the Python string operations used by `ptq` are modelled
directly on `List Char`.  Python compares strings lexicographically by
code point, which is exactly `listLt` below. -/

/-- Strict lexicographic order on char lists, by code point (Python `<` on
`str`; `Char`'s order is exactly code-point order). -/
def listLt : List Char → List Char → Bool
  | [], [] => false
  | [], _ :: _ => true
  | _ :: _, [] => false
  | x :: xs, y :: ys =>
    if x = y then listLt xs ys else decide (x < y)

/-- Lexicographic `≤` on char lists (Python `<=` on `str`). -/
def listLe (a b : List Char) : Bool := ! listLt b a

/-- Python `a < b` on strings. -/
def strLt (a b : String) : Bool := listLt a.data b.data

/-- Python `a <= b` on strings. -/
def strLe (a b : String) : Bool := listLe a.data b.data

/-- Python truthiness of an optional string (`None` and `""` are falsy). -/
def pyTruthyStr : Option String → Bool
  | none => false
  | some s => ! s.data.isEmpty

/-- Python `x or default` for an optional string: `None` and `""` fall back. -/
def pyOrStr (o : Option String) (d : String) : String :=
  if pyTruthyStr o then o.getD d else d

/-- Python truthiness of an optional integer (`None` and `0` are falsy). -/
def pyTruthyInt : Option Int → Bool
  | none => false
  | some n => decide (n ≠ 0)

/-- Python `str.isdigit` restricted to ASCII decimal digits
(nonempty and all chars in `0`–`9`). -/
def pyIsDigit (s : String) : Bool :=
  ! s.data.isEmpty && s.data.all Char.isDigit

/-- Python `int(s)` for a decimal digit string. -/
def pyParseNat (s : String) : Nat :=
  s.data.foldl (fun acc c => 10 * acc + (c.toNat - 48)) 0

/-! ## Job registry — `ptq/job.py` and `ptq/ssh.py`

The registry is the JSON document `~/.ptq/jobs.json`: a mapping from job id
to a job entry.  A Python `dict` is embedded as an association list with
unique keys; `load_jobs_db`/`save_jobs_db` become explicit passing of the
`Registry` value (plus, where a claim needs it, a flag telling whether the
document was written back). -/

/-- One registry entry (the value stored under a job id in `jobs.json`).
`none` in an `Option` field models the JSON key being absent or `null`.
For `machine` the two differ in Python only at `backend_for_job`'s
`entry["machine"]`, and only for hand-edited documents: every non-local
entry `register_job` creates carries the key (possibly `null`), which is
what `machine := none` models there.  The field `«local»` is `true`
exactly when the entry carries a truthy `"local"` key. -/
structure Entry where
  issue : Option Nat
  runs : Nat
  pid : Option Int := none
  «local» : Bool := false
  machine : Option String := none
  workspace : Option String := none
  reservation_id : Option String := none
deriving Repr, DecidableEq

/-- The persisted job registry: association list keyed by job id. -/
abbrev Registry := List (String × Entry)

/-- `db[k]` / `db.get(k)`: first (unique) binding of `k`. -/
def lookup : Registry → String → Option Entry
  | [], _ => none
  | (k', e) :: rest, k => if k' = k then some e else lookup rest k

/-- Python `k in db`. -/
def containsKey (db : Registry) (k : String) : Bool := (lookup db k).isSome

/-- Python `db[k] = e`: replace in place, else append (dict insertion order). -/
def setEntry : Registry → String → Entry → Registry
  | [], k, e => [(k, e)]
  | (k', e') :: rest, k, e =>
    if k' = k then (k, e) :: rest else (k', e') :: setEntry rest k e

/-- Python `db.pop(k, None)`: drop the binding of `k` if present. -/
def eraseEntry : Registry → String → Registry
  | [], _ => []
  | (k', e') :: rest, k => if k' = k then rest else (k', e') :: eraseEntry rest k

/-- Errors surfaced by the registry / CLI layer (`SystemExit`, `KeyError`,
`subprocess.CalledProcessError` in the source). -/
inductive PtqError where
  | unknownJob (job_id : String)
  | noJobsForIssue (issue : Nat)
  | commandFailed (cmd : String)
  | pyError (msg : String)
deriving Repr, DecidableEq

/-- `job.py:31`–`49` `register_job`: builds a fresh entry and stores it under
`job_id`, overwriting any existing entry.  Arguments mirror the Python
keyword arguments (defaults `issue_number=None`, `machine=None`,
`local=False`, `workspace=None`, `run_number=1`). -/
def register_job (db : Registry) (job_id : String) (issue_number : Option Nat)
    (machine : Option String) («local» : Bool) (workspace : Option String)
    (run_number : Nat) : Registry :=
  let entry : Entry :=
    if «local» then
      { issue := issue_number, runs := run_number, «local» := true,
        workspace := some (pyOrStr workspace "~/.ptq_workspace") }
    else
      { issue := issue_number, runs := run_number, machine := machine,
        workspace := some (pyOrStr workspace "~/ptq_workspace") }
  setEntry db job_id entry

/-- `job.py:52`–`59` `increment_run`: bumps `runs`, pops `pid`, persists, and
returns the new run number.  `db[job_id]` on an absent id raises
(`KeyError`), the failure the spec calls `UnknownJob`. -/
def increment_run (db : Registry) (job_id : String) :
    Except PtqError (Nat × Registry) :=
  match lookup db job_id with
  | none => Except.error (PtqError.unknownJob job_id)
  | some e =>
    let run_number := e.runs + 1
    Except.ok (run_number, setEntry db job_id { e with runs := run_number, pid := none })

/-- `job.py:62`–`70` `save_pid`: sets or clears the `pid` key of an existing
entry; returns early (without calling `save_jobs_db`) when the id is
unknown.  The boolean records whether the registry document was written. -/
def save_pid (db : Registry) (job_id : String) (pid : Option Int) :
    Registry × Bool :=
  match lookup db job_id with
  | none => (db, false)
  | some e => (setEntry db job_id { e with pid := pid }, true)

/-- `job.py:86`–`91` `save_reservation_id`: sets `reservation_id` on an
existing entry; silently returns when the id is unknown. -/
def save_reservation_id (db : Registry) (job_id : String)
    (reservation_id : String) : Registry × Bool :=
  match lookup db job_id with
  | none => (db, false)
  | some e =>
    (setEntry db job_id { e with reservation_id := some reservation_id }, true)

/-- `job.py:102`–`107` `get_job`. -/
def get_job (db : Registry) (job_id : String) : Except PtqError Entry :=
  match lookup db job_id with
  | none => Except.error (PtqError.unknownJob job_id)
  | some e => Except.ok e

/-- The `runs` counter stored under `job_id`, if the id is present. -/
def runsAt (db : Registry) (job_id : String) : Option Nat :=
  (lookup db job_id).map Entry.runs

end Ptq

namespace Ptq

/-! ### Basic registry lemmas -/

theorem lookup_setEntry_self (db : Registry) (k : String) (e : Entry) :
    lookup (setEntry db k e) k = some e := by
  induction db with
  | nil => simp [setEntry, lookup]
  | cons p rest ih =>
    obtain ⟨k', e'⟩ := p
    by_cases h : k' = k
    · simp [setEntry, h, lookup]
    · simp [setEntry, h, lookup, ih]

theorem lookup_setEntry_ne (db : Registry) (k k' : String) (e : Entry)
    (h : k' ≠ k) : lookup (setEntry db k e) k' = lookup db k' := by
  induction db with
  | nil => simp [setEntry, lookup, Ne.symm h]
  | cons p rest ih =>
    obtain ⟨k'', e''⟩ := p
    by_cases hk : k'' = k
    · subst hk
      simp [setEntry, lookup, Ne.symm h]
    · simp only [setEntry, if_neg hk, lookup]
      by_cases hk2 : k'' = k'
      · simp [hk2]
      · simp [hk2, ih]

/-! ### Claim C4 — `increment_run` -/

/-- C4: for an entry with `runs = r` (and any pid), `increment_run` returns
`r + 1` and persists the entry with `runs = r + 1` and the `pid` field
absent; for an absent id it fails with the `UnknownJob` error. -/
theorem increment_run_spec (db : Registry) (job_id : String) :
    (∀ e, lookup db job_id = some e →
      ∃ db', increment_run db job_id = Except.ok (e.runs + 1, db') ∧
        lookup db' job_id = some { e with runs := e.runs + 1, pid := none }) ∧
    (lookup db job_id = none →
      increment_run db job_id = Except.error (PtqError.unknownJob job_id)) := by
  constructor
  · intro e he
    refine ⟨setEntry db job_id { e with runs := e.runs + 1, pid := none }, ?_, ?_⟩
    · simp [increment_run, he]
    · exact lookup_setEntry_self db job_id _
  · intro h
    simp [increment_run, h]

/-- C4 witness: a registry holding `{runs := 1, pid := 555}` under `j1`;
incrementing `j1` yields 2 with the pid cleared, incrementing `nope` fails. -/
theorem increment_run_spec_witness :
    (∃ db', increment_run [("j1", { issue := some 1, runs := 1, pid := some 555 : Entry })] "j1" =
        Except.ok (2, db') ∧
      lookup db' "j1" = some { issue := some 1, runs := 2, pid := none : Entry }) ∧
    increment_run [("j1", { issue := some 1, runs := 1, pid := some 555 : Entry })] "nope" =
      Except.error (PtqError.unknownJob "nope") :=
  ⟨(increment_run_spec [("j1", { issue := some 1, runs := 1, pid := some 555 : Entry })] "j1").1
      { issue := some 1, runs := 1, pid := some 555 : Entry } (by decide),
   (increment_run_spec [("j1", { issue := some 1, runs := 1, pid := some 555 : Entry })] "nope").2
      (by decide)⟩

/-! ### Claim C10 — frame property of `save_pid` -/

/-- C10: `save_pid` modifies at most the `pid` field of the entry named by
`job_id` — all other fields of that entry and all other entries are
unchanged — and when the id is absent it returns without writing the
registry document (the written-back flag is `false` and the registry is
untouched). -/
theorem save_pid_frame (db : Registry) (job_id : String) (pid : Option Int) :
    (lookup db job_id = none → save_pid db job_id pid = (db, false)) ∧
    (∀ e, lookup db job_id = some e →
      (save_pid db job_id pid).2 = true ∧
      lookup (save_pid db job_id pid).1 job_id = some { e with pid := pid } ∧
      ∀ k, k ≠ job_id → lookup (save_pid db job_id pid).1 k = lookup db k) := by
  constructor
  · intro h
    simp [save_pid, h]
  · intro e he
    refine ⟨by simp [save_pid, he], ?_, ?_⟩
    · simp only [save_pid, he]
      exact lookup_setEntry_self db job_id _
    · intro k hk
      simp only [save_pid, he]
      exact lookup_setEntry_ne db job_id k _ hk

/-- C10 witness: writing and clearing a pid on a concrete two-entry
registry, plus the no-write behaviour on an unknown id. -/
theorem save_pid_frame_witness :
    (save_pid [("a", { issue := some 1, runs := 1 : Entry })] "missing" (some 9) =
      ([("a", { issue := some 1, runs := 1 : Entry })], false)) ∧
    ((save_pid [("a", { issue := some 1, runs := 1 : Entry }),
        ("b", { issue := some 2, runs := 3 : Entry })] "a" (some 9)).2 = true ∧
      lookup (save_pid [("a", { issue := some 1, runs := 1 : Entry }),
        ("b", { issue := some 2, runs := 3 : Entry })] "a" (some 9)).1 "a" =
        some { issue := some 1, runs := 1, pid := some 9 : Entry } ∧
      ∀ k, k ≠ "a" →
        lookup (save_pid [("a", { issue := some 1, runs := 1 : Entry }),
          ("b", { issue := some 2, runs := 3 : Entry })] "a" (some 9)).1 k =
        lookup [("a", { issue := some 1, runs := 1 : Entry }),
          ("b", { issue := some 2, runs := 3 : Entry })] k) :=
  ⟨(save_pid_frame [("a", { issue := some 1, runs := 1 : Entry })] "missing" (some 9)).1 (by decide),
   (save_pid_frame [("a", { issue := some 1, runs := 1 : Entry }),
      ("b", { issue := some 2, runs := 3 : Entry })] "a" (some 9)).2
     { issue := some 1, runs := 1 : Entry } (by decide)⟩

/-! ### Claim C2 — monotonicity of `runs` (corrected)

The claim says *no* registry operation ever decreases a stored `runs`
counter, in particular a second `register_job` for an existing id.  But
`register_job` simply overwrites the entry with `runs = run_number`
(default 1) — the spec itself says registration "fails silently
(overwrites)" — so re-registering an id whose entry has `runs = 2` stores
`runs = 1`. -/

/-- C2 counterexample: an entry with `runs = 2`; calling `register_job`
again for the same id with the default `run_number = 1` leaves the stored
`runs` value smaller than before the call (1 < 2). -/
theorem register_job_decreases_runs :
    runsAt [("20260101-1", { issue := some 1, runs := 2 : Entry })] "20260101-1" = some 2 ∧
    runsAt (register_job [("20260101-1", { issue := some 1, runs := 2 : Entry })]
        "20260101-1" (some 1) (some "m") false none 1) "20260101-1" = some 1 := by
  decide

/-- C2 amended: `increment_run`, `save_pid` and `save_reservation_id` never
decrease any entry's `runs` counter (the latter two leave it unchanged,
`increment_run` only increases it); `register_job` stores exactly its
`run_number` argument, which may be smaller than a previously stored
value when the id already exists. -/
theorem registry_runs_monotone :
    (∀ db job_id pid k, runsAt (save_pid db job_id pid).1 k = runsAt db k) ∧
    (∀ db job_id rid k, runsAt (save_reservation_id db job_id rid).1 k = runsAt db k) ∧
    (∀ db job_id n db', increment_run db job_id = Except.ok (n, db') →
      ∀ k r r', runsAt db k = some r → runsAt db' k = some r' → r ≤ r') ∧
    (∀ db job_id issue machine lcl ws rn,
      runsAt (register_job db job_id issue machine lcl ws rn) job_id = some rn) := by
  refine ⟨?_, ?_, ?_, ?_⟩
  · intro db job_id pid k
    rcases he : lookup db job_id with _ | e
    · simp [save_pid, he]
    · simp only [save_pid, he, runsAt]
      by_cases hk : k = job_id
      · subst hk
        simp [lookup_setEntry_self, he]
      · simp [lookup_setEntry_ne db job_id k _ hk]
  · intro db job_id rid k
    rcases he : lookup db job_id with _ | e
    · simp [save_reservation_id, he]
    · simp only [save_reservation_id, he, runsAt]
      by_cases hk : k = job_id
      · subst hk
        simp [lookup_setEntry_self, he]
      · simp [lookup_setEntry_ne db job_id k _ hk]
  · intro db job_id n db' h k r r' hr hr'
    rcases he : lookup db job_id with _ | e
    · simp [increment_run, he] at h
    · simp only [increment_run, he, Except.ok.injEq, Prod.mk.injEq] at h
      obtain ⟨hn, hdb⟩ := h
      subst hdb
      by_cases hk : k = job_id
      · subst hk
        rw [runsAt, lookup_setEntry_self] at hr'
        rw [runsAt, he] at hr
        simp at hr hr'
        omega
      · rw [runsAt, lookup_setEntry_ne db job_id k _ hk] at hr'
        rw [runsAt] at hr
        rw [hr] at hr'
        injection hr' with hrr
        omega
  · intro db job_id issue machine lcl ws rn
    by_cases hl : lcl
    · simp [register_job, hl, runsAt, lookup_setEntry_self]
    · simp [register_job, hl, runsAt, lookup_setEntry_self]

/-! ### Lexicographic order lemmas and Python `sorted` -/

theorem listLt_irrefl (a : List Char) : listLt a a = false := by
  induction a with
  | nil => rfl
  | cons x xs ih => simp [listLt, ih]

theorem listLt_trans (a b c : List Char) (h1 : listLt a b = true)
    (h2 : listLt b c = true) : listLt a c = true := by
  induction a generalizing b c with
  | nil =>
    cases b with
    | nil => simp [listLt] at h1
    | cons y ys =>
      cases c with
      | nil => simp [listLt] at h2
      | cons z zs => simp [listLt]
  | cons x xs ih =>
    cases b with
    | nil => simp [listLt] at h1
    | cons y ys =>
      cases c with
      | nil => simp [listLt] at h2
      | cons z zs =>
        by_cases hxy : x = y
        · subst hxy
          by_cases hyz : x = z
          · subst hyz
            simp only [listLt, if_pos rfl] at h1 h2 ⊢
            exact ih ys zs h1 h2
          · simpa [listLt, hyz] using h2
        · by_cases hyz : y = z
          · subst hyz
            simpa [listLt, hxy] using h1
          · simp only [listLt, if_neg hxy, decide_eq_true_eq] at h1
            simp only [listLt, if_neg hyz, decide_eq_true_eq] at h2
            have hxz : x < z := lt_trans h1 h2
            simp [listLt, ne_of_lt hxz, hxz]

theorem listLt_connex (a b : List Char) (h1 : listLt a b = false)
    (h2 : listLt b a = false) : a = b := by
  induction a generalizing b with
  | nil =>
    cases b with
    | nil => rfl
    | cons y ys => simp [listLt] at h1
  | cons x xs ih =>
    cases b with
    | nil => simp [listLt] at h2
    | cons y ys =>
      by_cases hxy : x = y
      · subst hxy
        simp only [listLt, if_pos rfl] at h1 h2
        rw [ih ys h1 h2]
      · have hyx : ¬ y = x := fun h => hxy h.symm
        simp only [listLt, if_neg hxy, decide_eq_false_iff_not, not_lt] at h1
        simp only [listLt, if_neg hyx, decide_eq_false_iff_not, not_lt] at h2
        exact absurd (le_antisymm h2 h1) hxy

theorem listLt_asymm (a b : List Char) (h : listLt a b = true) :
    listLt b a = false := by
  by_contra hc
  have hba : listLt b a = true := by
    cases hgoal : listLt b a
    · exact absurd hgoal hc
    · rfl
  have htrans := listLt_trans a b a h hba
  rw [listLt_irrefl] at htrans
  exact Bool.noConfusion htrans

/-- The order Python's `sorted(...)` uses on `(job_id, entry)` pairs: tuple
comparison, which never reaches the second component because dict keys are
unique — so it is comparison of the id strings. -/
def keyLe (a b : String × Entry) : Prop := listLe a.1.data b.1.data = true

instance : DecidableRel keyLe := fun a b =>
  inferInstanceAs (Decidable (listLe a.1.data b.1.data = true))

instance : IsTotal (String × Entry) keyLe := by
  constructor
  intro a b
  by_cases h : listLt b.1.data a.1.data = true
  · right
    have := listLt_asymm _ _ h
    simp [keyLe, listLe, this]
  · left
    simp only [Bool.not_eq_true] at h
    simp [keyLe, listLe, h]

instance : IsTrans (String × Entry) keyLe := by
  constructor
  intro a b c hab hbc
  simp only [keyLe, listLe, Bool.not_eq_true'] at hab hbc ⊢
  by_contra hc
  have hca : listLt c.1.data a.1.data = true := by
    cases hgoal : listLt c.1.data a.1.data
    · exact absurd hgoal hc
    · rfl
  by_cases h1 : listLt a.1.data b.1.data = true
  · have hcb := listLt_trans _ _ _ hca h1
    rw [hcb] at hbc
    exact Bool.noConfusion hbc
  · simp only [Bool.not_eq_true] at h1
    have heq := listLt_connex _ _ h1 hab
    rw [heq] at hca
    rw [hca] at hbc
    exact Bool.noConfusion hbc

instance : IsRefl (String × Entry) keyLe := by
  constructor
  intro a
  simp [keyLe, listLe, listLt_irrefl]

/-- Python `sorted(pairs)` (stable, ascending by id). -/
def sortByKey (l : List (String × Entry)) : List (String × Entry) :=
  List.insertionSort keyLe l

theorem sortByKey_perm (l : List (String × Entry)) : (sortByKey l).Perm l :=
  List.perm_insertionSort keyLe l

theorem sortByKey_sorted (l : List (String × Entry)) :
    List.Sorted keyLe (sortByKey l) :=
  List.sorted_insertionSort keyLe l

theorem sorted_keyLe_getLast {l : List (String × Entry)}
    (hs : List.Sorted keyLe l) (h : l ≠ []) :
    ∀ x ∈ l, keyLe x (l.getLast h) := by
  induction l with
  | nil => exact absurd rfl h
  | cons a t ih =>
    intro x hx
    cases t with
    | nil =>
      simp only [List.mem_singleton] at hx
      subst hx
      exact refl_of keyLe x
    | cons b t' =>
      rw [List.sorted_cons] at hs
      rw [List.getLast_cons (by simp)]
      rcases List.mem_cons.mp hx with hxa | hxt
      · subst hxa
        exact hs.1 _ (List.getLast_mem (by simp))
      · exact ih hs.2 (by simp) x hxt

/-- The entries whose `issue` field equals `n` (the list comprehension in
`resolve_job_id`, in registry order). -/
def issue_matches (db : Registry) (n : Nat) : Registry :=
  db.filter (fun p => decide (p.2.issue = some n))

/-- `job.py:73`–`83` `resolve_job_id`: an exact id is returned as-is; a
decimal token is looked up as an issue number, returning the
lexicographically greatest matching id (`sorted(matches)[-1]`), and fails
with `NoJobsForIssue` when nothing matches; anything else fails with
`UnknownJob`. -/
def resolve_job_id (db : Registry) (tok : String) : Except PtqError String :=
  if containsKey db tok then Except.ok tok
  else if pyIsDigit tok then
    match (sortByKey (issue_matches db (pyParseNat tok))).getLast? with
    | some p => Except.ok p.1
    | none => Except.error (PtqError.noJobsForIssue (pyParseNat tok))
  else Except.error (PtqError.unknownJob tok)

/-- `job.py:17`–`28` `find_existing_job`, inner loop over
`sorted(db.items(), reverse=True)`. -/
def find_existing_job_go (issue_number : Nat) (machine : Option String)
    («local» : Bool) : List (String × Entry) → Option String
  | [] => none
  | (jid, e) :: rest =>
    if ¬ e.issue = some issue_number then
      find_existing_job_go issue_number machine «local» rest
    else if «local» && e.«local» then some jid
    else if pyTruthyStr machine && decide (e.machine = machine) then some jid
    else find_existing_job_go issue_number machine «local» rest

/-- `job.py:17`–`28` `find_existing_job`: scan the registry newest-id-first
for an entry matching the issue number and the target. -/
def find_existing_job (db : Registry) (issue_number : Nat)
    (machine : Option String) («local» : Bool) : Option String :=
  find_existing_job_go issue_number machine «local» ((sortByKey db).reverse)

/-! ### Claim C5 — `resolve_job_id` -/

/-- C5: `resolve_job_id` returns the token itself when it is a registry
key; otherwise, for a decimal digit token it returns the lexicographically
greatest job id among the entries whose `issue` equals the parsed number,
failing with `NoJobsForIssue` when none matches; any other token fails
with `UnknownJob`. -/
theorem resolve_job_id_spec (db : Registry) (tok : String) :
    (containsKey db tok = true → resolve_job_id db tok = Except.ok tok) ∧
    (containsKey db tok = false → pyIsDigit tok = true →
      (issue_matches db (pyParseNat tok) ≠ [] →
        ∃ k, resolve_job_id db tok = Except.ok k ∧
          k ∈ (issue_matches db (pyParseNat tok)).map Prod.fst ∧
          ∀ k' ∈ (issue_matches db (pyParseNat tok)).map Prod.fst,
            strLe k' k = true) ∧
      (issue_matches db (pyParseNat tok) = [] →
        resolve_job_id db tok =
          Except.error (PtqError.noJobsForIssue (pyParseNat tok)))) ∧
    (containsKey db tok = false → pyIsDigit tok = false →
      resolve_job_id db tok = Except.error (PtqError.unknownJob tok)) := by
  refine ⟨?_, ?_, ?_⟩
  · intro h
    simp [resolve_job_id, h]
  · intro hmem hdig
    constructor
    · intro hne
      have hsne : sortByKey (issue_matches db (pyParseNat tok)) ≠ [] := by
        intro hnil
        have := (sortByKey_perm (issue_matches db (pyParseNat tok))).length_eq
        rw [hnil] at this
        exact hne (List.length_eq_zero.mp this.symm)
      have hlast :
          (sortByKey (issue_matches db (pyParseNat tok))).getLast? =
            some ((sortByKey (issue_matches db (pyParseNat tok))).getLast hsne) :=
        List.getLast?_eq_getLast _ hsne
      refine ⟨((sortByKey (issue_matches db (pyParseNat tok))).getLast hsne).1, ?_, ?_, ?_⟩
      · simp [resolve_job_id, hmem, hdig, hlast]
      · apply List.mem_map_of_mem Prod.fst
        exact (sortByKey_perm _).subset (List.getLast_mem hsne)
      · intro k' hk'
        rcases List.mem_map.mp hk' with ⟨p, hp, hpk⟩
        have hpin : p ∈ sortByKey (issue_matches db (pyParseNat tok)) :=
          ((sortByKey_perm _).mem_iff).mpr hp
        have := sorted_keyLe_getLast (sortByKey_sorted _) hsne p hpin
        rw [← hpk]
        exact this
    · intro hnil
      simp [resolve_job_id, hmem, hdig, sortByKey, hnil, List.insertionSort]
  · intro hmem hdig
    simp [resolve_job_id, hmem, hdig]

/-- C5 witness: the three behaviours on concrete registries — exact id
match, issue-number lookup picking the latest of two jobs, and the two
failure modes. -/
theorem resolve_job_id_spec_witness :
    resolve_job_id [("20260217-100", { issue := some 100, runs := 1 : Entry })]
        "20260217-100" = Except.ok "20260217-100" ∧
    (∃ k, resolve_job_id
        [("20260210-5", { issue := some 5, runs := 1 : Entry }),
         ("20260217-5", { issue := some 5, runs := 2 : Entry })] "5" =
          Except.ok k ∧
        k ∈ (issue_matches
          [("20260210-5", { issue := some 5, runs := 1 : Entry }),
           ("20260217-5", { issue := some 5, runs := 2 : Entry })] 5).map Prod.fst ∧
        ∀ k' ∈ (issue_matches
          [("20260210-5", { issue := some 5, runs := 1 : Entry }),
           ("20260217-5", { issue := some 5, runs := 2 : Entry })] 5).map Prod.fst,
          strLe k' k = true) ∧
    resolve_job_id [("20260217-100", { issue := some 100, runs := 1 : Entry })]
        "9999" = Except.error (PtqError.noJobsForIssue 9999) ∧
    resolve_job_id [("20260217-100", { issue := some 100, runs := 1 : Entry })]
        "nonexistent" = Except.error (PtqError.unknownJob "nonexistent") :=
  ⟨(resolve_job_id_spec _ "20260217-100").1 (by decide),
   ((resolve_job_id_spec
      [("20260210-5", { issue := some 5, runs := 1 : Entry }),
       ("20260217-5", { issue := some 5, runs := 2 : Entry })] "5").2.1
      (by decide) (by decide)).1 (by decide),
   ((resolve_job_id_spec [("20260217-100", { issue := some 100, runs := 1 : Entry })]
      "9999").2.1 (by decide) (by decide)).2 (by decide),
   (resolve_job_id_spec [("20260217-100", { issue := some 100, runs := 1 : Entry })]
      "nonexistent").2.2 (by decide) (by decide)⟩

/-! ### MD5 (`hashlib.md5`) and `make_job_id`

`make_job_id` calls `hashlib.md5(...).hexdigest()[:6]`.  `hashlib` is the
Python standard library, embedded here as the RFC 1321 MD5 algorithm over
the UTF-8 bytes of the message (32-bit words are `Nat`s reduced mod
`2^32`).  The constant table is `floor(abs(sin(i+1)) * 2^32)`. -/

/-- Reduce to a 32-bit word. -/
def m32 (x : Nat) : Nat := x % 4294967296

/-- 32-bit left rotation (operands already reduced mod `2^32`). -/
def rotl32 (x s : Nat) : Nat := m32 (x <<< s) ||| (x >>> (32 - s))

/-- MD5 sine constant table `K`. -/
def md5K : List Nat :=
  [0xd76aa478, 0xe8c7b756, 0x242070db, 0xc1bdceee, 0xf57c0faf, 0x4787c62a, 0xa8304613, 0xfd469501,
   0x698098d8, 0x8b44f7af, 0xffff5bb1, 0x895cd7be, 0x6b901122, 0xfd987193, 0xa679438e, 0x49b40821,
   0xf61e2562, 0xc040b340, 0x265e5a51, 0xe9b6c7aa, 0xd62f105d, 0x02441453, 0xd8a1e681, 0xe7d3fbc8,
   0x21e1cde6, 0xc33707d6, 0xf4d50d87, 0x455a14ed, 0xa9e3e905, 0xfcefa3f8, 0x676f02d9, 0x8d2a4c8a,
   0xfffa3942, 0x8771f681, 0x6d9d6122, 0xfde5380c, 0xa4beea44, 0x4bdecfa9, 0xf6bb4b60, 0xbebfbc70,
   0x289b7ec6, 0xeaa127fa, 0xd4ef3085, 0x04881d05, 0xd9d4d039, 0xe6db99e5, 0x1fa27cf8, 0xc4ac5665,
   0xf4292244, 0x432aff97, 0xab9423a7, 0xfc93a039, 0x655b59c3, 0x8f0ccc92, 0xffeff47d, 0x85845dd1,
   0x6fa87e4f, 0xfe2ce6e0, 0xa3014314, 0x4e0811a1, 0xf7537e82, 0xbd3af235, 0x2ad7d2bb, 0xeb86d391]

/-- MD5 per-round shift amounts `s`. -/
def md5S : List Nat :=
  [7, 12, 17, 22, 7, 12, 17, 22, 7, 12, 17, 22, 7, 12, 17, 22,
   5, 9, 14, 20, 5, 9, 14, 20, 5, 9, 14, 20, 5, 9, 14, 20,
   4, 11, 16, 23, 4, 11, 16, 23, 4, 11, 16, 23, 4, 11, 16, 23,
   6, 10, 15, 21, 6, 10, 15, 21, 6, 10, 15, 21, 6, 10, 15, 21]

/-- Little-endian word from (up to) four bytes. -/
def leWord (bs : List Nat) : Nat := bs.foldr (fun b acc => b + 256 * acc) 0

/-- The sixteen little-endian message words of a 64-byte chunk. -/
def md5Words (chunk : List Nat) : List Nat :=
  (List.range 16).map (fun j => leWord ((chunk.drop (4 * j)).take 4))

/-- Eight little-endian bytes of the 64-bit bit-length footer. -/
def leBytes8 (x : Nat) : List Nat :=
  (List.range 8).map (fun i => (x >>> (8 * i)) % 256)

/-- MD5 padding: `0x80`, zeros to 56 mod 64, then the bit length. -/
def md5Pad (msg : List Nat) : List Nat :=
  msg ++ [128] ++ List.replicate ((119 - msg.length % 64) % 64) 0 ++
    leBytes8 ((8 * msg.length) % 18446744073709551616)

/-- One of the 64 MD5 update steps. -/
def md5Step (M : List Nat) (st : Nat × Nat × Nat × Nat) (i : Nat) :
    Nat × Nat × Nat × Nat :=
  let a := st.1
  let b := st.2.1
  let c := st.2.2.1
  let d := st.2.2.2
  let f :=
    if i < 16 then (b &&& c) ||| ((b ^^^ 0xffffffff) &&& d)
    else if i < 32 then (d &&& b) ||| ((d ^^^ 0xffffffff) &&& c)
    else if i < 48 then b ^^^ c ^^^ d
    else c ^^^ (b ||| (d ^^^ 0xffffffff))
  let g :=
    if i < 16 then i
    else if i < 32 then (5 * i + 1) % 16
    else if i < 48 then (3 * i + 5) % 16
    else (7 * i) % 16
  let tmp := m32 (f + a + md5K.getD i 0 + M.getD g 0)
  (d, m32 (b + rotl32 tmp (md5S.getD i 0)), b, c)

/-- Process one 64-byte chunk. -/
def md5Chunk (st : Nat × Nat × Nat × Nat) (chunk : List Nat) :
    Nat × Nat × Nat × Nat :=
  let M := md5Words chunk
  let r := (List.range 64).foldl (md5Step M) st
  (m32 (st.1 + r.1), m32 (st.2.1 + r.2.1), m32 (st.2.2.1 + r.2.2.1),
    m32 (st.2.2.2 + r.2.2.2))

/-- The four MD5 state words of a byte message. -/
def md5Core (msg : List Nat) : Nat × Nat × Nat × Nat :=
  let padded := md5Pad msg
  ((List.range (padded.length / 64)).map
      (fun i => (padded.drop (64 * i)).take 64)).foldl md5Chunk
    (0x67452301, 0xefcdab89, 0x98badcfe, 0x10325476)

/-- Four little-endian bytes of a 32-bit word. -/
def wordLEBytes (w : Nat) : List Nat :=
  [w % 256, (w >>> 8) % 256, (w >>> 16) % 256, (w >>> 24) % 256]

/-- The 16-byte MD5 digest. -/
def md5Bytes (msg : List Nat) : List Nat :=
  wordLEBytes (md5Core msg).1 ++ wordLEBytes (md5Core msg).2.1 ++
    wordLEBytes (md5Core msg).2.2.1 ++ wordLEBytes (md5Core msg).2.2.2

/-- Lower-case hex digit (`0`–`9`, `a`–`f`). -/
def hexChar (n : Nat) : Char :=
  if n < 10 then Char.ofNat (48 + n) else Char.ofNat (87 + n)

/-- Two lower-case hex chars of one byte (`"%02x"`). -/
def byteHexChars (b : Nat) : List Char := [hexChar (b / 16), hexChar (b % 16)]

/-- UTF-8 bytes of a string (`str.encode()`). -/
def strBytes (s : String) : List Nat :=
  (s.data.flatMap String.utf8EncodeChar).map UInt8.toNat

/-- The character list of `hashlib.md5(s.encode()).hexdigest()`. -/
def md5HexChars (s : String) : List Char :=
  (md5Bytes (strBytes s)).flatMap byteHexChars

/-- `hashlib.md5(s.encode()).hexdigest()`. -/
def md5_hexdigest (s : String) : String := String.mk (md5HexChars s)

/-- `job.py:9`–`14` `make_job_id`.  `datetime.now().strftime("%Y%m%d")` is
passed in as `date`; the adhoc branch is
`date-adhoc-` + `md5(message or "adhoc").hexdigest()[:6]` (the string
slice is taken on the digest's character list). -/
def make_job_id (date : String) (issue_number : Option Nat)
    (message : Option String) : String :=
  match issue_number with
  | some n => date ++ "-" ++ toString n
  | none =>
    date ++ "-adhoc-" ++ String.mk ((md5HexChars (pyOrStr message "adhoc")).take 6)

example : md5_hexdigest "hello" = "5d41402abc4b2a76b9719d911017c592" := by decide
example : md5_hexdigest "" = "d41d8cd98f00b204e9800998ecf8427e" := by decide
example : md5_hexdigest "The quick brown fox jumps over the lazy dog and keeps running today" = "eb2a16c8ac4ebb242e52e9642360bc39" := by decide
example : make_job_id "20260217" (some 123) none = "20260217-123" := by decide

/-- Lower-case hex digit test (`0`–`9` or `a`–`f`). -/
def isHexDigitChar (c : Char) : Bool :=
  (48 ≤ c.toNat && c.toNat ≤ 57) || (97 ≤ c.toNat && c.toNat ≤ 102)

theorem hexChar_isHex (n : Nat) (h : n < 16) :
    isHexDigitChar (hexChar n) = true := by
  interval_cases n <;> decide

theorem md5Bytes_length (msg : List Nat) : (md5Bytes msg).length = 16 := by
  simp [md5Bytes, wordLEBytes]

theorem md5Bytes_lt (msg : List Nat) : ∀ b ∈ md5Bytes msg, b < 256 := by
  intro b hb
  simp only [md5Bytes, wordLEBytes, List.mem_append, List.mem_cons,
    List.not_mem_nil, or_false] at hb
  rcases hb with (h | h | h | h) | (h | h | h | h) | (h | h | h | h) | (h | h | h | h) <;>
    omega

theorem flatMap_byteHexChars_length (l : List Nat) :
    (l.flatMap byteHexChars).length = 2 * l.length := by
  induction l with
  | nil => rfl
  | cons b t ih =>
    simp only [List.flatMap_cons, List.length_append, ih, byteHexChars]
    simp
    omega

theorem md5HexChars_length (s : String) : (md5HexChars s).length = 32 := by
  rw [md5HexChars, flatMap_byteHexChars_length, md5Bytes_length]

theorem md5HexChars_hex (s : String) :
    ∀ c ∈ md5HexChars s, isHexDigitChar c = true := by
  intro c hc
  rw [md5HexChars] at hc
  rcases List.mem_flatMap.mp hc with ⟨b, hb, hcb⟩
  have hblt : b < 256 := md5Bytes_lt _ b hb
  simp only [byteHexChars, List.mem_cons, List.not_mem_nil, or_false] at hcb
  rcases hcb with h | h <;> subst h <;> exact hexChar_isHex _ (by omega)

/-! ### Text scanning primitives (`re` patterns used by `ptq`)

Python's `re` is embedded by direct scanners over `List Char`.  `\s` is
modelled by the ASCII whitespace class (the inputs involved are ASCII). -/

/-- Python `\s` (ASCII part). -/
def isPySpace (c : Char) : Bool :=
  c = ' ' || c = '\t' || c = '\n' || c = '\x0b' || c = '\x0c' || c = '\r'

/-- Strip `pre` from the head of `l`, or fail. -/
def dropPrefixChars : List Char → List Char → Option (List Char)
  | [], l => some l
  | _ :: _, [] => none
  | p :: ps, c :: cs => if c = p then dropPrefixChars ps cs else none

/-- Python `pat in s` (substring containment). -/
def containsSub (pat : List Char) : List Char → Bool
  | [] => pat.isEmpty
  | c :: cs => (dropPrefixChars pat (c :: cs)).isSome || containsSub pat cs

/-- Python `str.strip()` (whitespace from both ends). -/
def pyStrip (l : List Char) : List Char :=
  ((l.dropWhile isPySpace).reverse.dropWhile isPySpace).reverse

/-- The backtick character (spelled by code point). -/
def tickChar : Char := Char.ofNat 96

/-- A three-backtick fence. -/
def ticks : List Char := [tickChar, tickChar, tickChar]

/-- The optional `(?:python)?` after the opening fence.  The group is
greedy; if the rest of the pattern fails after consuming `python` it also
fails without it (the next pattern element requires whitespace), so the
group consumes `python` exactly when it is present. -/
def dropPython (l : List Char) : List Char :=
  match dropPrefixChars ("python".data) l with
  | some rest => rest
  | none => l

/-- The `\s*\n` element: greedy with backtracking, it consumes through the
last newline of the maximal whitespace run (and fails if that run has no
newline). -/
def dropWsNewline (l : List Char) : Option (List Char) :=
  let ws := l.takeWhile isPySpace
  match ws.reverse.findIdx? (fun c => c = '\n') with
  | some i => some (l.drop (ws.length - i))
  | none => none

/-- The lazy `(.*?)` + closing fence: split at the first occurrence of
three backticks, returning the capture and the text after the fence. -/
def splitAtTicks : List Char → Option (List Char × List Char)
  | [] => none
  | c :: cs =>
    match dropPrefixChars ticks (c :: cs) with
    | some rest => some ([], rest)
    | none =>
      match splitAtTicks cs with
      | some (cap, rest) => some (c :: cap, rest)
      | none => none

/-- One attempt of the `issue.py:27` pattern
(three backticks, optional `python`, `\s*\n`, lazy capture, three
backticks) at the head of `l`. -/
def matchFenceAt (l : List Char) : Option (List Char × List Char) :=
  match dropPrefixChars ticks l with
  | none => none
  | some l1 =>
    match dropWsNewline (dropPython l1) with
    | none => none
    | some l2 => splitAtTicks l2

/-- `re.findall` scan: try the pattern at every position, left to right,
resuming after each non-overlapping match.  Each match consumes at least
one character, so `fuel := length` never runs out. -/
def findCodeBlocksF : Nat → List Char → List (List Char)
  | 0, _ => []
  | _, [] => []
  | fuel + 1, c :: cs =>
    match matchFenceAt (c :: cs) with
    | some capRest => capRest.1 :: findCodeBlocksF fuel capRest.2
    | none => findCodeBlocksF fuel cs

/-- `re.findall(r"...(?:python)?\s*\n(.*?)...", body, re.DOTALL)` of
`issue.py:27` (the fences being three backticks). -/
def findCodeBlocks (l : List Char) : List (List Char) :=
  findCodeBlocksF l.length l

/-- The framework import marker. -/
def torchMarker : List Char := "import torch".data

/-- One issue comment (`{"body": ..., "author": {"login": ...}}`); absent
keys are `none`. -/
structure IssueComment where
  body : Option String
  author_login : Option String := none
deriving Repr, DecidableEq

/-- One issue label (`{"name": ...}`). -/
structure IssueLabel where
  name : Option String := none
deriving Repr, DecidableEq

/-- The issue payload (`gh issue view --json title,body,comments,labels`);
absent JSON keys are `none` / `[]`. -/
structure IssueData where
  body : Option String
  comments : List IssueComment
  title : Option String := none
  labels : List IssueLabel := []
deriving Repr, DecidableEq

/-- `issue.py:23`–`25`: the issue body concatenated with every comment
body, each preceded by a newline. -/
def full_body (d : IssueData) : String :=
  d.comments.foldl (fun acc c => acc ++ "\n" ++ c.body.getD "") (d.body.getD "")

/-- `issue.py:28`–`31`: first block containing the marker, stripped. -/
def extract_repro_loop : List (List Char) → Option String
  | [] => none
  | b :: bs =>
    if containsSub torchMarker b then some (String.mk (pyStrip b))
    else extract_repro_loop bs

/-- `issue.py:22`–`31` `extract_repro_script`. -/
def extract_repro_script (d : IssueData) : Option String :=
  extract_repro_loop (findCodeBlocks (full_body d).data)

example :
    extract_repro_script
      { body := some "Steps:\n```python\nimport torch\nx = torch.randn(3)\n```\n",
        comments := [] } = some "import torch\nx = torch.randn(3)" := by decide
example :
    extract_repro_script
      { body := some "Repro:\n```\nimport torch\nprint(torch.version)\n```\n",
        comments := [] } = some "import torch\nprint(torch.version)" := by decide
example :
    extract_repro_script
      { body := some "```python\nimport numpy\n```\n```python\nimport torch\npass\n```\n",
        comments := [] } = some "import torch\npass" := by decide
example :
    extract_repro_script
      { body := some "No code here.",
        comments := [{ body := some "```\nimport torch\nfail()\n```" }] } =
      some "import torch\nfail()" := by decide
example :
    extract_repro_script { body := some "just text, no code", comments := [] } =
      none := by decide
example :
    extract_repro_script { body := none, comments := [] } = none := by decide

/-! ### Claim C8 — repro extraction (corrected)

The claim (from the spec) says the scan finds fenced code blocks "plain or
language-tagged".  The source pattern only accepts an untagged fence or
the literal tag `python`: a block tagged with any other language word is
not found, even when it contains `import torch`.  The definitions below
formalise the claim's reading (any language word as tag) for the
counterexample; the amended claim restricts the tag to `python`. -/

/-- The claim's reading of an opening fence tag: any run of
non-whitespace, non-backtick characters (a language word). -/
def specDropTag (l : List Char) : List Char :=
  l.dropWhile (fun c => !isPySpace c && !(c = tickChar))

/-- Fence matcher under the claim's "plain or language-tagged" reading. -/
def specMatchFenceAt (l : List Char) : Option (List Char × List Char) :=
  match dropPrefixChars ticks l with
  | none => none
  | some l1 =>
    match dropWsNewline (specDropTag l1) with
    | none => none
    | some l2 => splitAtTicks l2

/-- Scan for fenced blocks under the claim's reading. -/
def specFindBlocksAnyTagF : Nat → List Char → List (List Char)
  | 0, _ => []
  | _, [] => []
  | fuel + 1, c :: cs =>
    match specMatchFenceAt (c :: cs) with
    | some capRest => capRest.1 :: specFindBlocksAnyTagF fuel capRest.2
    | none => specFindBlocksAnyTagF fuel cs

/-- `extract_repro_script` as claim C8 states it: first fenced block
(plain or language-tagged) containing the marker, trimmed. -/
def spec_extract_repro_langTagged (d : IssueData) : Option String :=
  ((specFindBlocksAnyTagF (full_body d).data.length (full_body d).data).find?
      (fun b => containsSub torchMarker b)).map
    (fun b => String.mk (pyStrip b))

/-- Concatenation of a list of strings. -/
def strConcat (l : List String) : String := l.foldr (fun a b => a ++ b) ""

theorem strConcat_cons (x : String) (xs : List String) :
    strConcat (x :: xs) = x ++ strConcat xs := rfl

/-- The concatenation as the claim states it: issue body, then all comment
bodies in their given order (each on a new line). -/
def spec_full_body (d : IssueData) : String :=
  (d.body.getD "") ++ strConcat (d.comments.map (fun c => "\n" ++ c.body.getD ""))

/-- C8 counterexample: a body whose single fenced block is tagged with the
language word `text` and contains `import torch`.  The code returns
`none`, while the claim (blocks "plain or language-tagged") requires the
block's trimmed content. -/
theorem extract_repro_langTagged_counterexample :
    extract_repro_script
        { body := some "```text\nimport torch\n```", comments := [] } = none ∧
    spec_extract_repro_langTagged
        { body := some "```text\nimport torch\n```", comments := [] } =
      some "import torch" := by decide

/-- C8 amended: `extract_repro_script` concatenates the issue body with
all comment bodies in their given order, scans the concatenation for
fenced code blocks (untagged or tagged exactly `python`), and returns the
trimmed content of the first block containing `import torch`, or `none`
if no block qualifies. -/
theorem extract_repro_script_spec (d : IssueData) :
    extract_repro_script d =
      ((findCodeBlocks (spec_full_body d).data).find?
          (fun b => containsSub torchMarker b)).map
        (fun b => String.mk (pyStrip b)) := by
  have hbody : full_body d = spec_full_body d := by
    rw [full_body, spec_full_body]
    generalize d.body.getD "" = init
    induction d.comments generalizing init with
    | nil => simp [strConcat]
    | cons c t ih =>
      rw [List.foldl_cons, ih, List.map_cons]
      simp only [strConcat_cons, String.append_assoc]
  rw [extract_repro_script, hbody]
  generalize findCodeBlocks (spec_full_body d).data = blocks
  induction blocks with
  | nil => rfl
  | cons b bs ih =>
    by_cases h : containsSub torchMarker b
    · simp [extract_repro_loop, h, List.find?]
    · simp only [extract_repro_loop, List.find?, h, Bool.false_eq_true,
        if_false] at ih ⊢
      exact ih

/-! ### Claim C9 — adhoc job ids -/

/-- C9: `make_job_id(message=m)` is a pure function of the date and the
message — two calls with identical message on the same day return the
same id — of the form `<date>-adhoc-<6 hex digits>` where the suffix is
the first six hex digits of the MD5 digest of the message (of the string
`"adhoc"` when the message is empty or absent, per `message or "adhoc"`);
and distinct messages can produce distinct ids. -/
theorem make_job_id_adhoc_spec :
    (∀ date m, make_job_id date none (some m) =
      date ++ "-adhoc-" ++
        String.mk ((md5HexChars (pyOrStr (some m) "adhoc")).take 6)) ∧
    (∀ m, ((md5HexChars m).take 6).length = 6 ∧
      ((md5HexChars m).take 6).all isHexDigitChar = true) ∧
    make_job_id "20260217" none (some "hello") ≠
      make_job_id "20260217" none (some "world") := by
  refine ⟨fun date m => rfl, fun m => ⟨?_, ?_⟩, by decide⟩
  · rw [List.length_take, md5HexChars_length]
    decide
  · rw [List.all_eq_true]
    intro c hc
    exact md5HexChars_hex m c (List.mem_of_mem_take hc)

/-! ### Execution backends — `ptq/ssh.py`

`RemoteBackend` / `LocalBackend` are the two dataclasses of `ssh.py`;
`Backend` is their union (`ssh.py:99`).  Job-control side effects live in
an explicit `OsState` (the target's process table).  The four job-control
methods (`launch_background`, `tail_log`, `is_pid_alive`, `kill_pid`) are
called on backends throughout `agent.py`/`cli.py` and mocked in the tests,
but their bodies are not part of the source tree; they are modelled from
the specification (§4.1) below. -/

/-- Default `ssh_opts` of `RemoteBackend`. -/
def sshDefaultOpts : List String := ["-o", "StrictHostKeyChecking=no"]

/-- `ssh.py:10`–`16` `RemoteBackend`.  The dataclass annotates `machine`
as `str`, but Python does not enforce it and `backend_for_job` passes a
registry value that may be `null`, so the field is optional here. -/
structure RemoteBackend where
  machine : Option String
  workspace : String
  ssh_opts : List String
deriving Repr, DecidableEq

/-- `ssh.py:59`–`61` `LocalBackend`. -/
structure LocalBackend where
  workspace : String
deriving Repr, DecidableEq

/-- `ssh.py:99` `Backend = RemoteBackend | LocalBackend`. -/
inductive Backend where
  | remote (b : RemoteBackend)
  | localb (b : LocalBackend)
deriving Repr, DecidableEq

/-- `backend.workspace` (both variants carry one). -/
def Backend.workspace : Backend → String
  | .remote b => b.workspace
  | .localb b => b.workspace

/-- `isinstance(backend, RemoteBackend)`. -/
def Backend.isRemote : Backend → Bool
  | .remote _ => true
  | .localb _ => false

/-- A process in the target's process table. -/
structure OsProc where
  pid : Int
  cmd : String
  log_file : String
  detached : Bool
deriving Repr, DecidableEq

/-- The target machine's process table (next_pid is the pid the OS hands
to the next spawned process). -/
structure OsState where
  procs : List OsProc
  next_pid : Int
deriving Repr, DecidableEq

/-- Whether `pid` is alive on the target. -/
def OsState.alive (os : OsState) (pid : Int) : Bool :=
  os.procs.any (fun p => p.pid = pid)

/-- Modelled from the spec: `launchBackground(command, logFile) -> pid`
(§4.1) — starts `command` detached from the caller's lifetime with
stdout/stderr redirected to `logFile` and returns the OS process id.  The
method is called at `agent.py:346` and mocked in the tests, but its body
is not under `src/`. -/
def RemoteBackend.launch_background (_b : RemoteBackend) (cmd log_file : String)
    (os : OsState) : Int × OsState :=
  (os.next_pid,
    { procs := os.procs ++
        [{ pid := os.next_pid, cmd := cmd, log_file := log_file, detached := true }],
      next_pid := os.next_pid + 1 })

/-- Modelled from the spec: `launchBackground` on the local backend
(§4.1); body not under `src/`. -/
def LocalBackend.launch_background (_b : LocalBackend) (cmd log_file : String)
    (os : OsState) : Int × OsState :=
  (os.next_pid,
    { procs := os.procs ++
        [{ pid := os.next_pid, cmd := cmd, log_file := log_file, detached := true }],
      next_pid := os.next_pid + 1 })

/-- `backend.launch_background(...)` dispatched over the union. -/
def Backend.launch_background (b : Backend) (cmd log_file : String)
    (os : OsState) : Int × OsState :=
  match b with
  | .remote rb => rb.launch_background cmd log_file os
  | .localb lb => lb.launch_background cmd log_file os

/-- Modelled from the spec: `isPidAlive(pid) -> bool` (§4.1) — checks pid
existence on the target; body not under `src/`. -/
def Backend.is_pid_alive (_b : Backend) (os : OsState) (pid : Int) : Bool :=
  os.alive pid

/-- Modelled from the spec: `killPid(pid)` (§4.1) — best-effort,
idempotent, no error if the pid is already gone; body not under `src/`. -/
def Backend.kill_pid (_b : Backend) (os : OsState) (pid : Int) : OsState :=
  { os with procs := os.procs.filter (fun p => !(p.pid = pid)) }

/-- `ssh.py:115`–`124` `backend_for_job`. -/
def backend_for_job (db : Registry) (job_id : String) : Except PtqError Backend :=
  match lookup db job_id with
  | none => Except.error (PtqError.unknownJob job_id)
  | some e =>
    if e.«local» then
      Except.ok (Backend.localb { workspace := e.workspace.getD "~/.ptq_workspace" })
    else
      Except.ok (Backend.remote
        { machine := e.machine, workspace := e.workspace.getD "~/ptq_workspace",
          ssh_opts := sshDefaultOpts })

/-! ### Claim C1 — `launch_background` on both variants -/

/-- C1: both backend variants provide `launch_background(command, logFile)`
— the very operation `launch_agent` invokes as
`backend.launch_background(claude_cmd, log_file)` — and on every backend
it starts the command as a new detached process with output redirected to
the log file and returns that process's id. -/
theorem launch_background_spec (b : Backend) (cmd log_file : String)
    (os : OsState) :
    ∃ p ∈ (b.launch_background cmd log_file os).2.procs,
      p.pid = (b.launch_background cmd log_file os).1 ∧
      p.cmd = cmd ∧ p.log_file = log_file ∧ p.detached = true := by
  cases b with
  | remote rb =>
    exact ⟨{ pid := os.next_pid, cmd := cmd, log_file := log_file, detached := true },
      by simp [Backend.launch_background, RemoteBackend.launch_background],
      rfl, rfl, rfl, rfl⟩
  | localb lb =>
    exact ⟨{ pid := os.next_pid, cmd := cmd, log_file := log_file, detached := true },
      by simp [Backend.launch_background, LocalBackend.launch_background],
      rfl, rfl, rfl, rfl⟩

/-! ### Claim C3 — the kill command -/

/-- `cli.py:726`–`749` `kill`, after `resolve_job_id` has produced
`job_id` (the claim is about the operation on a resolved job).  Python's
`if not pid` treats a stored pid of `0` like an absent one. -/
def kill_cmd (db : Registry) (os : OsState) (job_id : String) :
    Except PtqError (Registry × OsState) :=
  match get_job db job_id with
  | Except.error e => Except.error e
  | Except.ok job =>
    match backend_for_job db job_id with
    | Except.error e => Except.error e
    | Except.ok backend =>
      match job.pid with
      | none => Except.ok (db, os)
      | some pid =>
        if pid = 0 then Except.ok (db, os)
        else if backend.is_pid_alive os pid then
          Except.ok ((save_pid db job_id none).1, backend.kill_pid os pid)
        else
          Except.ok ((save_pid db job_id none).1, os)

theorem alive_kill_pid_self (b : Backend) (os : OsState) (pid : Int) :
    (b.kill_pid os pid).alive pid = false := by
  rw [OsState.alive, List.any_eq_false]
  intro p hp
  rcases List.mem_filter.mp hp with ⟨_, hcond⟩
  simpa using hcond

theorem backend_for_job_ok (db : Registry) (job_id : String) (e : Entry)
    (he : lookup db job_id = some e) :
    ∃ b, backend_for_job db job_id = Except.ok b := by
  simp only [backend_for_job, he]
  by_cases hl : e.«local» = true
  · exact ⟨_, by rw [if_pos hl]⟩
  · exact ⟨_, by rw [if_neg hl]⟩

/-- C3: on a resolved job (an id present in the registry) the kill command
never fails; if a (nonzero) pid is tracked and alive it kills that pid
and clears the pid in the registry, if the pid is tracked but not alive
it just clears the pid and leaves the process table alone, and if no pid
is tracked (absent, or Python-falsy `0`) registry and process table are
both left unchanged. -/
theorem kill_cmd_spec (db : Registry) (os : OsState) (job_id : String)
    (e : Entry) (he : lookup db job_id = some e) :
    (∃ r, kill_cmd db os job_id = Except.ok r) ∧
    ((e.pid = none ∨ e.pid = some 0) →
      kill_cmd db os job_id = Except.ok (db, os)) ∧
    (∀ pid, e.pid = some pid → pid ≠ 0 →
      ∃ db' os', kill_cmd db os job_id = Except.ok (db', os') ∧
        lookup db' job_id = some { e with pid := none } ∧
        (os.alive pid = true → os'.alive pid = false) ∧
        (os.alive pid = false → os' = os)) := by
  have hclear :
      lookup (save_pid db job_id none).1 job_id = some { e with pid := none } := by
    simp only [save_pid, he]
    exact lookup_setEntry_self db job_id _
  obtain ⟨bk, hbk⟩ := backend_for_job_ok db job_id e he
  refine ⟨?_, ?_, ?_⟩
  · rcases hp : e.pid with _ | pid
    · exact ⟨(db, os), by simp [kill_cmd, get_job, he, hbk, hp]⟩
    · by_cases h0 : pid = 0
      · exact ⟨(db, os), by simp [kill_cmd, get_job, he, hbk, hp, h0]⟩
      · by_cases ha : OsState.alive os pid = true
        · exact ⟨((save_pid db job_id none).1, bk.kill_pid os pid),
            by simp [kill_cmd, get_job, he, hbk, hp, h0, Backend.is_pid_alive, ha]⟩
        · simp only [Bool.not_eq_true] at ha
          exact ⟨((save_pid db job_id none).1, os),
            by simp [kill_cmd, get_job, he, hbk, hp, h0, Backend.is_pid_alive, ha]⟩
  · intro hp
    rcases hp with hp | hp <;> simp [kill_cmd, get_job, he, hbk, hp]
  · intro pid hp h0
    by_cases ha : OsState.alive os pid = true
    · refine ⟨(save_pid db job_id none).1, bk.kill_pid os pid, ?_, hclear, ?_, ?_⟩
      · simp [kill_cmd, get_job, he, hbk, hp, h0, Backend.is_pid_alive, ha]
      · intro _
        exact alive_kill_pid_self _ os pid
      · intro hco
        rw [ha] at hco
        exact absurd hco (by simp)
    · simp only [Bool.not_eq_true] at ha
      refine ⟨(save_pid db job_id none).1, os, ?_, hclear, ?_, fun _ => rfl⟩
      · simp [kill_cmd, get_job, he, hbk, hp, h0, Backend.is_pid_alive, ha]
      · intro hco
        rw [ha] at hco
        exact absurd hco (by simp)

/-- Fixture entry for the C3 witness: tracked pid 7 on machine `m`. -/
def killFixtureEntry : Entry := { issue := some 1, runs := 1, pid := some 7, machine := some "m", workspace := some "~/ptq_workspace" }

/-- Fixture registry for the C3 witness. -/
def killFixtureDb : Registry := [("j1", killFixtureEntry)]

/-- Fixture process table for the C3 witness: pid 7 is alive. -/
def killFixtureOs : OsState := { procs := [{ pid := 7, cmd := "claude", log_file := "l", detached := true }], next_pid := 8 }

/-- C3 witness: a registry with a tracked pid 7 that is alive on the
target; the kill command succeeds, clears the pid and kills the process. -/
theorem kill_cmd_spec_witness :
    ∃ db' os',
      kill_cmd killFixtureDb killFixtureOs "j1" = Except.ok (db', os') ∧
      lookup db' "j1" = some { killFixtureEntry with pid := none } ∧
      (killFixtureOs.alive 7 = true → os'.alive 7 = false) ∧
      (killFixtureOs.alive 7 = false → os' = killFixtureOs) :=
  (kill_cmd_spec killFixtureDb killFixtureOs "j1" killFixtureEntry
    (by decide)).2.2 7 rfl (by decide)

/-! ### Claim C7 — fleet clean (code bug)

`cli.py:471` computes `to_remove = matching[:-keep] if keep and
len(matching) > keep else matching`: whenever `0 < len(matching) ≤ keep`
the guard is false and **all** matching stopped jobs are removed, even
though `keep` of them were supposed to survive (the code even prints
"keeping {keep}").  The spec ("optionally keep the N most-recently-
created") and the claim describe the intended behaviour; the code removes
everything when at most `keep` jobs match. -/

/-- `cli.py:480`–`492`: the removal loop (kill if alive, drop from the
registry; the `git worktree remove` / `rm -rf` target commands do not
touch the registry or the process table and are not modelled). -/
def _clean_machine_loop (backend : Backend) :
    List (String × Entry) → Registry × OsState → Registry × OsState
  | [], st => st
  | (jid, e) :: rest, (db, os) =>
    let os' :=
      match e.pid with
      | some pid =>
        if pid ≠ 0 ∧ backend.is_pid_alive os pid = true then
          backend.kill_pid os pid
        else os
      | none => os
    _clean_machine_loop backend rest (eraseEntry db jid, os')

/-- `cli.py:430`–`496` `_clean_machine`. -/
def _clean_machine (db : Registry) (os : OsState) (machine : Option String)
    («local» : Bool) (workspace : Option String) (keep : Nat)
    (include_running : Bool) : Except PtqError (Registry × OsState) :=
  match
    (if «local» then
      some (Backend.localb { workspace := pyOrStr workspace "~/.ptq_workspace" })
    else
      machine.map (fun m => Backend.remote
        { machine := some m, workspace := pyOrStr workspace "~/ptq_workspace",
          ssh_opts := sshDefaultOpts })) with
  | none => Except.error (PtqError.pyError "assert machine is not None")
  | some backend =>
    let matching := (sortByKey db).filter
      (fun p => («local» && p.2.«local») ||
        (pyTruthyStr machine && decide (p.2.machine = machine)))
    let matching2 :=
      if include_running then matching
      else matching.filter (fun p =>
        match p.2.pid with
        | some pid => !(pid ≠ 0 ∧ backend.is_pid_alive os pid = true : Bool)
        | none => true)
    let to_remove :=
      if keep ≠ 0 ∧ matching2.length > keep then
        matching2.take (matching2.length - keep)
      else matching2
    if to_remove.isEmpty then Except.ok (db, os)
    else Except.ok (_clean_machine_loop backend to_remove (db, os))

/-- Fixture: a stopped job entry on machine `m` for a given issue. -/
def cleanFixtureEntry (n : Nat) : Entry := { issue := some n, runs := 1, machine := some "m", workspace := some "~/ptq_workspace" }

/-- Fixture: an empty process table (all jobs stopped). -/
def cleanFixtureOs : OsState := { procs := [], next_pid := 1000 }

/-- Fixture: five stopped jobs on machine `m`, oldest to newest. -/
def cleanFixtureDb5 : Registry := [("20260101-1", cleanFixtureEntry 1), ("20260102-2", cleanFixtureEntry 2), ("20260103-3", cleanFixtureEntry 3), ("20260104-4", cleanFixtureEntry 4), ("20260105-5", cleanFixtureEntry 5)]

/-- C7: the claim holds in the main case — with 5 matching stopped jobs
and `keep = 2` exactly the 3 lexicographically smallest (oldest) are
removed and the 2 newest remain — but fails whenever at most `keep` jobs
match: with a single matching stopped job and `keep = 2` the code removes
that job (the registry ends up empty) although it is among the 2 newest
and the claim requires it to survive. -/
theorem clean_machine_keep_bug :
    _clean_machine [("20260101-1", cleanFixtureEntry 1)] cleanFixtureOs
        (some "m") false none 2 false =
      Except.ok ([], cleanFixtureOs) ∧
    _clean_machine cleanFixtureDb5 cleanFixtureOs (some "m") false none 2 false =
      Except.ok
        ([("20260104-4", cleanFixtureEntry 4), ("20260105-5", cleanFixtureEntry 5)],
          cleanFixtureOs) :=
  ⟨rfl, rfl⟩

/-! ### The agent launcher — `ptq/agent.py`

`launch_agent` drives one job dispatch.  Its effects are embedded
explicitly: the registry and the target's process table live in an
`LState`, every `backend.run` consults an oracle in the environment
(indexed by the call number, so consecutive calls may see different
results), and every backend interaction is recorded as an event.  The
trace is the object of claim C6; events before the launch come from
`backend.run` / `backend.copy_to` only, which the `PreEvent` type makes
explicit. -/

/-- Python `"sep".join(parts)`. -/
def strJoinSep (sep : String) : List String → String
  | [] => ""
  | [x] => x
  | x :: y :: xs => x ++ sep ++ strJoinSep sep (y :: xs)

/-- Python `s.strip()` on strings. -/
def pyStripStr (s : String) : String := String.mk (pyStrip s.data)

/-- Python `f"{x}"` on an optional string (`None` renders as `"None"`). -/
def pyStrOfOptStr : Option String → String
  | some s => s
  | none => "None"

/-- `agent.py:319` `message.replace("'", "'\\''")`. -/
def pyEscapeQuotes (s : String) : String :=
  String.mk (s.data.flatMap (fun c => if c = '\'' then "'\\''".data else [c]))

/-- Case-insensitive literal prefix match (the pattern is lower case). -/
def dropPrefixCI : List Char → List Char → Option (List Char)
  | [], l => some l
  | _ :: _, [] => none
  | p :: ps, c :: cs => if c.toLower = p then dropPrefixCI ps cs else none

/-- One attempt of `agent.py:33` `RESERVED_HEADER_RE = x-anthropic-\S+`
(case-insensitive) at the head of `l`: the literal, then a maximal
nonempty run of non-whitespace; returns the rest after the match. -/
def matchHeaderAt (l : List Char) : Option (List Char) :=
  match dropPrefixCI ("x-anthropic-".data) l with
  | none => none
  | some l1 =>
    match l1 with
    | [] => none
    | c :: _ =>
      if isPySpace c then none
      else some (l1.dropWhile (fun ch => !isPySpace ch))

/-- `re.sub` scan for the reserved-header pattern. -/
def sanitizeF : Nat → List Char → List Char
  | 0, l => l
  | _, [] => []
  | fuel + 1, c :: cs =>
    match matchHeaderAt (c :: cs) with
    | some rest => "[redacted-header]".data ++ sanitizeF fuel rest
    | none => c :: sanitizeF fuel cs

/-- `agent.py:36`–`37` `_sanitize_for_api`. -/
def _sanitize_for_api (s : String) : String :=
  String.mk (sanitizeF s.data.length s.data)

example : _sanitize_for_api "key: x-anthropic-api-key" = "key: [redacted-header]" := by decide
example : _sanitize_for_api "hello world" = "hello world" := by decide

/-- `issue.py:34`–`57` `format_issue_context`. -/
def format_issue_context (issue_data : IssueData) (issue_number : Nat) : String :=
  let title := issue_data.title.getD ""
  let body := pyOrStr issue_data.body ""
  let labels := issue_data.labels.map (fun l => l.name.getD "")
  let lines :=
    ["# Issue #" ++ toString issue_number ++ ": " ++ title, "",
     "**Labels**: " ++ (if labels.isEmpty then "none" else strJoinSep ", " labels), "",
     "## Description", "", body]
  let lines := lines ++
    (if issue_data.comments.isEmpty then []
     else ["", "## Comments", ""] ++
       (issue_data.comments.enum.flatMap (fun ic =>
         ["### Comment " ++ toString (ic.1 + 1) ++ " by @" ++
            ic.2.author_login.getD "unknown",
          "", ic.2.body.getD "", ""])))
  strJoinSep "\n" lines

/-- `agent.py:144` `DEFAULT_MESSAGE`. -/
def DEFAULT_MESSAGE : String :=
  "Investigate and fix the PyTorch issue described in your system prompt."

/-- A backend interaction recorded before the agent is launched: these
steps only ever call `backend.run` or `backend.copy_to`. -/
inductive PreEvent where
  | run (cmd : String)
  | copy_to (dest : String)
deriving Repr, DecidableEq

/-- Any backend interaction of a launch, in order. -/
inductive Event where
  | run (cmd : String)
  | copy_to (dest : String)
  | launch_background (cmd : String) (log_file : String)
  | tail_log (log_file : String)
deriving Repr, DecidableEq

/-- Embed a pre-launch event into the full event type. -/
def PreEvent.toEvent : PreEvent → Event
  | .run c => Event.run c
  | .copy_to d => Event.copy_to d

/-- Result of one `backend.run` (a `subprocess.CompletedProcess`). -/
structure CmdResult where
  returncode : Nat
  stdout : String
deriving Repr, DecidableEq

/-- The launcher's environment: the current date, the outcome of each
`backend.run` call (indexed by call count), and the data read from files
that are not part of the source tree.  `script_names` is the `*.sh`
listing used by `deploy_scripts`; `investigate_fill`/`adhoc_fill` are
modelled from the spec: the prompt templates `prompts/investigate.md` and
`prompts/adhoc.md` are loaded from disk (`agent.py:24`–`30`) and are not
under `src/`, so filling them is kept abstract (spec §4.4 step 7: a
template filled with job id, issue context / task description, and
workspace path). -/
structure AgentEnv where
  date : String
  run_result : Nat → String → CmdResult
  script_names : List String
  investigate_fill : String → Nat → String → String → String
  adhoc_fill : String → String → String → String

/-- Mutable world state threaded through a launch: the registry document,
the target's process table, and the number of `backend.run` calls made so
far (the oracle index). -/
structure LState where
  db : Registry
  os : OsState
  ctr : Nat

/-- `agent.py:40`–`50` `build_system_prompt`. -/
def build_system_prompt (env : AgentEnv) (issue_data : IssueData)
    (issue_number : Nat) (job_id : String) (workspace : String) : String :=
  _sanitize_for_api
    (env.investigate_fill job_id issue_number
      (format_issue_context issue_data issue_number) workspace)

/-- `agent.py:53`–`60` `build_adhoc_prompt`. -/
def build_adhoc_prompt (env : AgentEnv) (message : String) (job_id : String)
    (workspace : String) : String :=
  _sanitize_for_api (env.adhoc_fill job_id message workspace)

/-- One `backend.run(cmd, check)` call: consult the oracle, record the
event, and raise `CalledProcessError` when `check` is set and the exit
code is nonzero. -/
def doRun (env : AgentEnv) (st : LState) (cmd : String) (check : Bool) :
    Except PtqError (CmdResult × LState × List PreEvent) :=
  let res := env.run_result st.ctr cmd
  if check ∧ res.returncode ≠ 0 then Except.error (PtqError.commandFailed cmd)
  else Except.ok (res, { st with ctr := st.ctr + 1 }, [PreEvent.run cmd])

/-- `agent.py:183`–`187` `_validate_workspace` (fails fast with the
"Workspace broken" `SystemExit` when a required path is missing). -/
def _validate_workspace (env : AgentEnv) (st : LState) (workspace : String) :
    Except PtqError (LState × List PreEvent) :=
  match doRun env st ("test -e " ++ workspace ++ "/pytorch/.git") false with
  | Except.error e => Except.error e
  | Except.ok (r1, st1, ev1) =>
    if r1.returncode ≠ 0 then
      Except.error (PtqError.pyError
        ("Workspace broken: " ++ workspace ++ "/pytorch/.git missing. Re-run: ptq setup"))
    else
      match doRun env st1 ("test -e " ++ workspace ++ "/.venv/bin/python") false with
      | Except.error e => Except.error e
      | Except.ok (r2, st2, ev2) =>
        if r2.returncode ≠ 0 then
          Except.error (PtqError.pyError
            ("Workspace broken: " ++ workspace ++ "/.venv/bin/python missing. Re-run: ptq setup"))
        else Except.ok (st2, ev1 ++ ev2)

/-- `workspace.py:126`–`144` `deploy_scripts`: make the scripts directory,
copy each `*.sh` (a backend transfer only on the remote variant — the
local variant copies through the filesystem), mark executable. -/
def deploy_scripts (env : AgentEnv) (backend : Backend) (st : LState) :
    Except PtqError (LState × List PreEvent) :=
  match doRun env st ("mkdir -p " ++ backend.workspace ++ "/scripts") true with
  | Except.error e => Except.error e
  | Except.ok (_, st1, ev1) =>
    let copyEvs :=
      if backend.isRemote then
        env.script_names.map
          (fun n => PreEvent.copy_to (backend.workspace ++ "/scripts/" ++ n))
      else []
    match doRun env st1 ("chmod +x " ++ backend.workspace ++ "/scripts/*.sh") true with
    | Except.error e => Except.error e
    | Except.ok (_, st2, ev2) => Except.ok (st2, ev1 ++ copyEvs ++ ev2)

/-- `agent.py:149`–`180` `_build_prior_context`: read worklog and report
(tolerating absence), return the continuation block or `""`. -/
def _build_prior_context (env : AgentEnv) (st : LState) (job_dir : String)
    (run_number : Nat) : Except PtqError (String × LState × List PreEvent) :=
  match doRun env st ("cat " ++ job_dir ++ "/worklog.md") false with
  | Except.error e => Except.error e
  | Except.ok (worklog, st1, ev1) =>
    match doRun env st1 ("cat " ++ job_dir ++ "/report.md") false with
    | Except.error e => Except.error e
    | Except.ok (report, st2, ev2) =>
      let worklog_content :=
        if worklog.returncode = 0 then pyStripStr worklog.stdout else ""
      let report_content :=
        if report.returncode = 0 then pyStripStr report.stdout else ""
      if worklog_content = "" ∧ report_content = "" then
        Except.ok ("", st2, ev1 ++ ev2)
      else
        let sections :=
          ["\n\n## Prior Run Context\n",
           "The following is from a previous investigation attempt on this issue. Use it to avoid repeating work and to build on what was already found.\n"] ++
          (if ¬ worklog_content = "" then
            ["### Previous Worklog\n" ++ worklog_content ++ "\n"] else []) ++
          (if ¬ report_content = "" then
            ["### Previous Report\n" ++ report_content ++ "\n"] else []) ++
          ["\n## Continuation Instructions\n" ++
           "This is **run " ++ toString run_number ++ "**. A `## Run " ++
           toString run_number ++
           "` section (with the user's steering message) has already been appended to the worklog. You MUST:\n" ++
           "1. Append your findings, analysis, or changes under that section before you finish — even if the user's message was a question rather than a fix request.\n" ++
           "2. If you made any code changes, regenerate `fix.diff` and update `report.md`.\n" ++
           "3. If the user asked an analytical question, update `report.md` with your findings as a new section.\n" ++
           "\nEvery run must leave a trace in the worklog and artifacts.\n"]
        Except.ok (strJoinSep "\n" sections, st2, ev1 ++ ev2)

/-- `agent.py:190`–`200` `_stamp_worklog_header`: the heredoc command that
appends the run-boundary header (`## Run N`, plus the user's steering
message when one is given) to the worklog. -/
def _stamp_worklog_header_cmd (job_dir : String) (run_number : Nat)
    (message : Option String) : String :=
  let lines := ["", "", "## Run " ++ toString run_number, ""] ++
    (if pyTruthyStr message then ["> **User:** " ++ message.getD "", ""] else [])
  "cat >> " ++ job_dir ++ "/worklog.md << 'WORKLOG_STAMP_EOF'\n" ++
    strJoinSep "\n" lines ++ "\nWORKLOG_STAMP_EOF"

/-- `agent.py:257`–`271`: the sandbox settings document
(`json.dumps` with default separators). -/
def worktree_settings_json (job_dir workspace : String) : String :=
  "\x7b\"sandbox\": \x7b\"enabled\": true, \"allowedDirectories\": [\"" ++
    job_dir ++ "\", \"" ++ workspace ++ "/.venv\", \"" ++ workspace ++
    "/scripts\"]\x7d, \"env\": \x7b\"CLAUDE_CODE_ATTRIBUTION_HEADER\": \"0\"\x7d\x7d"

/-- The values `launch_agent` has computed by the time it stamps the
worklog (`agent.py:215`–`285`). -/
structure Phase1Out where
  job_id : String
  run_number : Nat
  existing : Option String
  job_dir : String
  worktree_path : String
  system_prompt : String
deriving Repr

/-- `agent.py:215`–`234`: mode, job id, run number, `existing`.  Adhoc
launches always mint a fresh id; issue launches reuse a matching job and
bump its run counter (clearing the stale pid). -/
def launch_agent_resolve (env : AgentEnv) (issue_number : Option Nat)
    (machine : Option String) («local» : Bool) (message : Option String)
    (st : LState) : Except PtqError ((Option String × String × Nat) × LState) :=
  match issue_number with
  | none => Except.ok ((none, make_job_id env.date none message, 1), st)
  | some n =>
    match find_existing_job st.db n machine «local» with
    | some jid =>
      match increment_run st.db jid with
      | Except.error e => Except.error e
      | Except.ok (rn, db') => Except.ok ((some jid, jid, rn), { st with db := db' })
    | none => Except.ok ((none, make_job_id env.date (some n) none, 1), st)

/-- `agent.py:215`–`287`: everything before the worklog stamp — resolve
the job, validate an existing workspace, create the job directory, deploy
scripts, ensure the worktree, write the sandbox settings, build the
system prompt (with prior-run context for an existing job). -/
def launch_agent_phase1 (env : AgentEnv) (backend : Backend)
    (issue_data : Option IssueData) (issue_number : Option Nat)
    (machine : Option String) («local» : Bool) (message : Option String)
    (st : LState) : Except PtqError (Phase1Out × LState × List PreEvent) :=
  let workspace := backend.workspace
  match launch_agent_resolve env issue_number machine «local» message st with
  | Except.error e => Except.error e
  | Except.ok ((existing, job_id, run_number), st0) =>
    let job_dir := workspace ++ "/jobs/" ++ job_id
    let worktree_path := job_dir ++ "/pytorch"
    match (if existing.isSome then _validate_workspace env st0 workspace
           else Except.ok (st0, [])) with
    | Except.error e => Except.error e
    | Except.ok (st1, evA) =>
      match doRun env st1 ("mkdir -p " ++ job_dir) true with
      | Except.error e => Except.error e
      | Except.ok (_, st2, evB) =>
        match deploy_scripts env backend st2 with
        | Except.error e => Except.error e
        | Except.ok (st3, evC) =>
          match doRun env st3 ("test -d " ++ worktree_path ++ "/.git || test -f " ++
              worktree_path ++ "/.git") false with
          | Except.error e => Except.error e
          | Except.ok (rWt, st4, evD) =>
            match (if rWt.returncode ≠ 0 then
                doRun env st4 ("cd " ++ workspace ++
                  "/pytorch && git worktree add " ++ worktree_path ++ " HEAD") true
              else Except.ok ({ returncode := 0, stdout := "" }, st4, [])) with
            | Except.error e => Except.error e
            | Except.ok (_, st5, evE) =>
              match doRun env st5 ("mkdir -p " ++ worktree_path ++ "/.claude") false with
              | Except.error e => Except.error e
              | Except.ok (_, st6, evF) =>
                match doRun env st6 ("cat > " ++ worktree_path ++
                    "/.claude/settings.json << 'SETTINGS_EOF'\n" ++
                    worktree_settings_json job_dir workspace ++
                    "\nSETTINGS_EOF") true with
                | Except.error e => Except.error e
                | Except.ok (_, st7, evG) =>
                  let base_prompt :=
                    match issue_number with
                    | none =>
                      build_adhoc_prompt env (pyStrOfOptStr message) job_id workspace
                    | some n =>
                      build_system_prompt env
                        (issue_data.getD { body := none, comments := [] }) n
                        job_id workspace
                  match (if existing.isSome then
                      _build_prior_context env st7 job_dir run_number
                    else Except.ok ("", st7, [])) with
                  | Except.error e => Except.error e
                  | Except.ok (prior, st8, evH) =>
                    let system_prompt :=
                      if ¬ prior = "" then base_prompt ++ prior else base_prompt
                    Except.ok
                      ({ job_id := job_id, run_number := run_number,
                         existing := existing, job_dir := job_dir,
                         worktree_path := worktree_path,
                         system_prompt := system_prompt },
                       st8, evA ++ evB ++ evC ++ evD ++ evE ++ evF ++ evG ++ evH)

/-- `agent.py:289`–`345`: everything between the worklog stamp and the
launch — upload the system prompt and any extracted repro, compose the
agent command line, register a new job, touch the log file.  Returns the
`claude` command and the log path the launch step uses. -/
def launch_agent_phase2 (env : AgentEnv) (backend : Backend)
    (issue_data : Option IssueData) (issue_number : Option Nat)
    (machine : Option String) («local» : Bool) (model : String)
    (max_turns : Nat) (message : Option String) (p : Phase1Out)
    (st : LState) : Except PtqError ((String × String) × LState × List PreEvent) :=
  let workspace := backend.workspace
  let evPrompt := [PreEvent.copy_to (p.job_dir ++ "/system_prompt.md")]
  let evRepro :=
    match issue_number with
    | none => []
    | some _ =>
      match extract_repro_script (issue_data.getD { body := none, comments := [] }) with
      | some _ => [PreEvent.copy_to (p.job_dir ++ "/repro.py")]
      | none => []
  match (match issue_number with
         | none =>
           match message with
           | some m => Except.ok m
           | none => Except.error (PtqError.pyError
               "AttributeError: NoneType object has no attribute replace")
         | some _ =>
           if p.existing.isSome then Except.ok (pyOrStr message DEFAULT_MESSAGE)
           else if pyTruthyStr message then
             Except.ok (DEFAULT_MESSAGE ++ "\n\nAdditional context: " ++ message.getD "")
           else Except.ok DEFAULT_MESSAGE) with
  | Except.error e => Except.error e
  | Except.ok agent_message =>
    let log_file := p.job_dir ++ "/claude-" ++ toString p.run_number ++ ".log"
    let escaped_message := pyEscapeQuotes agent_message
    let unbuffer := if backend.isRemote then "stdbuf -oL " else ""
    let claude_cmd :=
      "cd " ++ p.worktree_path ++ " && " ++ unbuffer ++ "claude -p '" ++
      escaped_message ++ "' --model " ++ model ++ " --max-turns " ++
      toString max_turns ++
      " --allowedTools 'Read,Edit,Write,Bash,Grep,Glob' --dangerously-skip-permissions --append-system-prompt-file " ++
      p.job_dir ++ "/system_prompt.md --output-format stream-json --verbose"
    let db9 := register_job st.db p.job_id issue_number machine «local» (some workspace) p.run_number
    let st9 := if p.existing.isNone then { st with db := db9 } else st
    match doRun env st9 ("touch " ++ log_file) true with
    | Except.error e => Except.error e
    | Except.ok (_, st10, evTouch) =>
      Except.ok ((claude_cmd, log_file), st10, evPrompt ++ evRepro ++ evTouch)

/-- `agent.py:203`–`374` `launch_agent`.  The returned trace records every
backend interaction in order; the follow branch only tails the log (the
stream-decoding loop is pure observation and the interrupt path leaves
the agent running), so in the model both follow modes return the job id
after the launch. -/
def launch_agent (env : AgentEnv) (backend : Backend)
    (issue_data : Option IssueData) (issue_number : Option Nat)
    (machine : Option String) («local» : Bool) (follow : Bool)
    (model : String) (max_turns : Nat) (message : Option String)
    (st : LState) : Except PtqError (String × LState × List Event) :=
  match launch_agent_phase1 env backend issue_data issue_number machine
      «local» message st with
  | Except.error e => Except.error e
  | Except.ok (p, st8, evs1) =>
    match doRun env st8
        (_stamp_worklog_header_cmd p.job_dir p.run_number message) true with
    | Except.error e => Except.error e
    | Except.ok (_, stS, _) =>
      match launch_agent_phase2 env backend issue_data issue_number machine
          «local» model max_turns message p stS with
      | Except.error e => Except.error e
      | Except.ok ((claude_cmd, log_file), st10, evs2) =>
        let launched := backend.launch_background claude_cmd log_file st10.os
        let st11 := { st10 with os := launched.2 }
        let st12 := { st11 with db := (save_pid st11.db p.job_id (some launched.1)).1 }
        let tailEvs := if follow then [Event.tail_log log_file] else []
        Except.ok (p.job_id, st12,
          evs1.map PreEvent.toEvent ++
            Event.run (_stamp_worklog_header_cmd p.job_dir p.run_number message) ::
              (evs2.map PreEvent.toEvent ++
                Event.launch_background claude_cmd log_file :: tailEvs))

/-- Whether an `Except` is a success. -/
def exceptIsOk : Except PtqError (String × LState × List Event) → Bool
  | Except.ok _ => true
  | Except.error _ => false

/-- Environment for the re-dispatch example: every command succeeds. -/
def redispatchEnv : AgentEnv := { date := "20260217", run_result := fun _ _ => { returncode := 0, stdout := "" }, script_names := ["bisect.sh"], investigate_fill := fun _ _ _ _ => "tmpl", adhoc_fill := fun _ _ _ => "tmpl" }

/-- Registry for the re-dispatch example: issue 5 already has a job on
machine `m` from run 1, with a stale pid. -/
def redispatchDb : Registry := [("20260210-5", { issue := some 5, runs := 1, pid := some 42, machine := some "m", workspace := some "/ws" })]

/-- Re-dispatching issue 5 to the same machine reuses the job id, bumps
`runs` to 2, and records the pid of the second launch (the stale pid 42
was cleared by `increment_run` before pid 500 was saved) — the spec §8
double-dispatch scenario, validating the launcher model end to end. -/
example :
    (launch_agent redispatchEnv
        (Backend.remote { machine := some "m", workspace := "/ws", ssh_opts := sshDefaultOpts })
        (some { body := none, comments := [] }) (some 5) (some "m") false false
        "opus" 100 none
        { db := redispatchDb, os := { procs := [], next_pid := 500 }, ctr := 0 }).map
      (fun r => (r.1, runsAt r.2.1.db "20260210-5",
        (lookup r.2.1.db "20260210-5").bind Entry.pid)) =
      Except.ok ("20260210-5", some 2, some 500) := rfl

/-- Environment for the C6 witness launch: every command succeeds, no
helper scripts, abstract templates. -/
def launchWitnessEnv : AgentEnv := { date := "20260217", run_result := fun _ _ => { returncode := 0, stdout := "" }, script_names := [], investigate_fill := fun _ _ _ _ => "tmpl", adhoc_fill := fun _ _ _ => "tmpl" }

/-- Initial state for the C6 witness launch: empty registry, empty
process table. -/
def launchWitnessSt : LState := { db := [], os := { procs := [], next_pid := 500 }, ctr := 0 }

/-! ### Claim C6 — the worklog stamp happens before the launch -/

theorem launch_not_mem_map_toEvent (l : List PreEvent) (c lf : String) :
    Event.launch_background c lf ∉ l.map PreEvent.toEvent := by
  intro h
  rcases List.mem_map.mp h with ⟨e, _, he⟩
  cases e <;> simp [PreEvent.toEvent] at he

/-- C6: every invocation of `launch_agent` that reaches the launch step
(equivalently, that returns successfully — all aborts happen before the
launch, and nothing after it aborts) records the run-boundary worklog
stamp (the `## Run N` heredoc, carrying the steering message when one is
given) strictly before the `launch_background` event that starts the
detached agent: the trace splits as `A ++ stamp :: B` with every launch
event in `B` and none in `A`. -/
theorem launch_agent_stamp_before_launch
    (env : AgentEnv) (backend : Backend) (issue_data : Option IssueData)
    (issue_number : Option Nat) (machine : Option String) («local» : Bool)
    (follow : Bool) (model : String) (max_turns : Nat)
    (message : Option String) (st : LState) (jid : String) (st' : LState)
    (trace : List Event)
    (h : launch_agent env backend issue_data issue_number machine «local»
      follow model max_turns message st = Except.ok (jid, st', trace)) :
    ∃ jd rn A B,
      trace = A ++ Event.run (_stamp_worklog_header_cmd jd rn message) :: B ∧
      (∀ c lf, Event.launch_background c lf ∉ A) ∧
      (∃ c lf, Event.launch_background c lf ∈ B) := by
  unfold launch_agent at h
  split at h
  · exact absurd h (by simp)
  next p st8 evs1 _ =>
    split at h
    · exact absurd h (by simp)
    next r2 stS evS _ =>
      split at h
      · exact absurd h (by simp)
      next claude_cmd log_file st10 evs2 _ =>
        simp only [Except.ok.injEq, Prod.mk.injEq] at h
        refine ⟨p.job_dir, p.run_number, evs1.map PreEvent.toEvent,
          evs2.map PreEvent.toEvent ++
            Event.launch_background claude_cmd log_file ::
              (if follow then [Event.tail_log log_file] else []), ?_, ?_, ?_⟩
        · exact h.2.2.symm
        · intro c lf
          exact launch_not_mem_map_toEvent evs1 c lf
        · exact ⟨claude_cmd, log_file, by simp⟩

/-- C6 witness: a concrete successful adhoc local launch (every command
succeeds); the theorem applies and yields the stamp-before-launch split. -/
theorem launch_agent_stamp_before_launch_witness :
    ∃ jid st' trace,
      launch_agent launchWitnessEnv (Backend.localb { workspace := "/tmp/ws" })
          none none none true false "opus" 100 (some "hello") launchWitnessSt =
        Except.ok (jid, st', trace) ∧
      ∃ jd rn A B,
        trace = A ++
          Event.run (_stamp_worklog_header_cmd jd rn (some "hello")) :: B ∧
        (∀ c lf, Event.launch_background c lf ∉ A) ∧
        (∃ c lf, Event.launch_background c lf ∈ B) := by
  have hok : exceptIsOk (launch_agent launchWitnessEnv
      (Backend.localb { workspace := "/tmp/ws" }) none none none true false
      "opus" 100 (some "hello") launchWitnessSt) = true := by decide
  rcases hres : launch_agent launchWitnessEnv
      (Backend.localb { workspace := "/tmp/ws" }) none none none true false
      "opus" 100 (some "hello") launchWitnessSt with e | ⟨jid, st', trace⟩
  · rw [hres] at hok
    exact absurd hok (by simp [exceptIsOk])
  · exact ⟨jid, st', trace, rfl,
      launch_agent_stamp_before_launch launchWitnessEnv
        (Backend.localb { workspace := "/tmp/ws" }) none none none true false
        "opus" 100 (some "hello") launchWitnessSt jid st' trace hres⟩

/-- C2 amended witness: concrete instances of all four conjuncts, including
an `increment_run` success on a one-entry registry. -/
theorem registry_runs_monotone_witness :
    runsAt (save_pid [("j", { issue := some 1, runs := 4 : Entry })] "j" (some 7)).1 "j" =
      runsAt [("j", { issue := some 1, runs := 4 : Entry })] "j" ∧
    (1 : Nat) ≤ 2 :=
  ⟨registry_runs_monotone.1 [("j", { issue := some 1, runs := 4 : Entry })] "j" (some 7) "j",
   registry_runs_monotone.2.2.1 [("j", { issue := some 1, runs := 1 : Entry })] "j" 2
     (setEntry [("j", { issue := some 1, runs := 1 : Entry })] "j"
       { issue := some 1, runs := 2, pid := none : Entry })
     (by rfl) "j" 1 2 (by decide) (by decide)⟩

end Ptq
